import Mathlib

/-!
Verification of the `CoordinateTransform` core of the geotiff repository
(`src/coordinate_transform.rs`).

Embedding choices:
* `f64` values are modelled as rationals (`ℚ`); the validator
  `from_tag_data` never inspects numeric values, only presence and
  lengths, so this is faithful for every claim about it.
* Rust's fixed-size arrays (`[f64; 3]`, `[f64; 6]`, `[f64; 16]`) and
  `Vec<f64>` are modelled as `List ℚ`; the length invariants are
  established by `from_tag_data` exactly as in the source, where
  `<[f64; N]>::try_from` fails on a length mismatch.
* `TiffResult<T>` (`Result<T, TiffError>`) is modelled as
  `Except TiffError T`, with `TiffError::FormatError(TiffFormatError::Format(msg))`
  collapsed to the constructor `TiffError.FormatError msg` carrying the
  message string, which is all the source ever constructs.
-/

/-- Tag-name constant from the source (`MODEL_TIE_POINT_TAG`). -/
def MODEL_TIE_POINT_TAG : String := "ModelTiePointTag"

/-- Tag-name constant from the source (`MODEL_PIXEL_SCALE_TAG`). -/
def MODEL_PIXEL_SCALE_TAG : String := "ModelPixelScaleTag"

/-- Tag-name constant from the source (`MODEL_TRANSFORMATION_TAG`). -/
def MODEL_TRANSFORMATION_TAG : String := "ModelTransformationTag"

/-- The only error shape the source constructs:
`TiffError::FormatError(TiffFormatError::Format(String))`. -/
inductive TiffError where
  | FormatError (msg : String) : TiffError
  deriving DecidableEq, Repr

instance {ε α : Type} [DecidableEq ε] [DecidableEq α] : DecidableEq (Except ε α)
  | .ok a, .ok b =>
    decidable_of_iff (a = b) ⟨fun h => by rw [h], fun h => by injection h⟩
  | .ok _, .error _ => .isFalse (fun h => by injection h)
  | .error _, .ok _ => .isFalse (fun h => by injection h)
  | .error e, .error f =>
    decidable_of_iff (e = f) ⟨fun h => by rw [h], fun h => by injection h⟩

/-- The message carried by a `TiffError`. -/
def TiffError.message : TiffError → String
  | .FormatError msg => msg

/-- The three georeferencing representations, from the source enum
`CoordinateTransform`.  Payload lengths (6 and 3, arbitrary multiple of 6,
16) are enforced by `from_tag_data`. -/
inductive CoordinateTransform where
  | TiePointAndPixelScale (tie_point : List ℚ) (pixel_scale : List ℚ) : CoordinateTransform
  | TiePoints (tie_points : List ℚ) : CoordinateTransform
  | AffineTransform (matrix : List ℚ) : CoordinateTransform
  deriving DecidableEq, Repr

/-- The pixel-scale closure in `from_tag_data`: `<[f64; 3]>::try_from`,
failing unless the data has exactly 3 elements. -/
def checkPixelScale : Option (List ℚ) → Except TiffError (Option (List ℚ))
  | none => .ok none
  | some data =>
    if data.length = 3 then .ok (some data)
    else .error (.FormatError ("Number values in " ++ MODEL_PIXEL_SCALE_TAG ++ " must be equal to 3"))

/-- The tie-point closure in `from_tag_data`: length must be positive and
divisible by 6, checked in that order. -/
def checkTiePoints : Option (List ℚ) → Except TiffError (Option (List ℚ))
  | none => .ok none
  | some data =>
    if data.length = 0 then
      .error (.FormatError ("Number of values in " ++ MODEL_TIE_POINT_TAG ++ " must be greater than 0"))
    else if data.length % 6 ≠ 0 then
      .error (.FormatError ("Number of values in " ++ MODEL_TIE_POINT_TAG ++ " must be divisible by 6"))
    else .ok (some data)

/-- The transformation closure in `from_tag_data`: `<[f64; 16]>::try_from`,
failing unless the data has exactly 16 elements. -/
def checkTransformationMatrix : Option (List ℚ) → Except TiffError (Option (List ℚ))
  | none => .ok none
  | some data =>
    if data.length = 16 then .ok (some data)
    else .error (.FormatError ("Number of values in " ++ MODEL_TRANSFORMATION_TAG ++ " must be equal to 16"))

/-- Translation of `CoordinateTransform::from_tag_data`, clause by clause from
the source: the three shape checks run first (pixel scale, tie points,
transformation, each propagating its error via `?`), then the
transformation-present branch enforces mutual exclusion, and the
transformation-absent branch requires tie points and, for a single
tie-point group, a pixel scale. -/
def from_tag_data (pixel_scale_data model_tie_points_data model_transformation_data :
    Option (List ℚ)) : Except TiffError CoordinateTransform :=
  match checkPixelScale pixel_scale_data with
  | .error e => .error e
  | .ok pixel_scale =>
  match checkTiePoints model_tie_points_data with
  | .error e => .error e
  | .ok tie_points =>
  match checkTransformationMatrix model_transformation_data with
  | .error e => .error e
  | .ok transformation =>
  match transformation with
  | some t =>
    if pixel_scale.isSome then
      .error (.FormatError (MODEL_PIXEL_SCALE_TAG ++ " must not be specified when " ++ MODEL_TRANSFORMATION_TAG ++ " is present"))
    else if tie_points.isSome then
      .error (.FormatError (MODEL_TIE_POINT_TAG ++ " must not be specified when " ++ MODEL_TRANSFORMATION_TAG ++ " is present"))
    else .ok (.AffineTransform t)
  | none =>
    match tie_points with
    | none =>
      .error (.FormatError (MODEL_TIE_POINT_TAG ++ " must be present when " ++ MODEL_TRANSFORMATION_TAG ++ " is missing"))
    | some tps =>
      if tps.length = 6 then
        match pixel_scale with
        | none =>
          .error (.FormatError (MODEL_PIXEL_SCALE_TAG ++ " must be specified when " ++ MODEL_TIE_POINT_TAG ++ " contains 6 values"))
        | some s => .ok (.TiePointAndPixelScale tps s)
      else .ok (.TiePoints tps)

/-- Modelled from the spec: rounding policy at the raster boundary
(§4.2, §9) — round-half-away-from-zero with clamp-to-zero, converting a
continuous model coordinate to an unsigned pixel index.  For nonnegative
inputs half-away-from-zero rounding is the floor of the input plus one
half; every negative input clamps to 0. -/
def roundClamp (q : ℚ) : ℕ :=
  if q < 0 then 0 else (⌊q + 1 / 2⌋).toNat

/-- Determinant of a 3×3 matrix given row-major, by cofactor expansion
along the first row (the spec's §4.2 names cofactor expansion as the
intended inversion technique). -/
def det3 (a b c d e f g h i : ℚ) : ℚ :=
  a * (e * i - f * h) - b * (d * i - f * g) + c * (d * h - e * g)

/-- Determinant of a row-major 4×4 matrix (given as a 16-element list, as
stored in `CoordinateTransform.AffineTransform`), by cofactor expansion
along the first row. -/
def det4 (m : List ℚ) : ℚ :=
  let g := fun i => m.getD i 0
  g 0 * det3 (g 5) (g 6) (g 7) (g 9) (g 10) (g 11) (g 13) (g 14) (g 15)
    - g 1 * det3 (g 4) (g 6) (g 7) (g 8) (g 10) (g 11) (g 12) (g 14) (g 15)
    + g 2 * det3 (g 4) (g 5) (g 7) (g 8) (g 9) (g 11) (g 12) (g 13) (g 15)
    - g 3 * det3 (g 4) (g 5) (g 6) (g 8) (g 9) (g 10) (g 12) (g 13) (g 14)

/-- Modelled from the spec: the source leaves
`transform_to_model_by_tie_point_and_pixel_scale` as an unimplemented
placeholder (`todo!()`); §4.2 defines it as
`X = tieX + (col - tieI) * scaleX`, `Y = tieY - (row - tieJ) * scaleY`,
with the tie point laid out `[I, J, K, X, Y, Z]` and the pixel scale
`[ScaleX, ScaleY, ScaleZ]`. -/
def transform_to_model_by_tie_point_and_pixel_scale (tie_point pixel_scale : List ℚ)
    (coordinate : ℕ × ℕ) : ℚ × ℚ :=
  let tieI := tie_point.getD 0 0
  let tieJ := tie_point.getD 1 0
  let tieX := tie_point.getD 3 0
  let tieY := tie_point.getD 4 0
  let sx := pixel_scale.getD 0 0
  let sy := pixel_scale.getD 1 0
  (tieX + ((coordinate.1 : ℚ) - tieI) * sx, tieY - ((coordinate.2 : ℚ) - tieJ) * sy)

/-- Modelled from the spec: the source leaves
`transform_to_raster_by_tie_point_and_pixel_scale` as `todo!()`; §4.2
defines it as the algebraic inverse `col = tieI + (X - tieX) / scaleX`,
`row = tieJ - (Y - tieY) / scaleY`, rounded by `roundClamp`, and §7
requires a zero scale to surface as a computation error rather than a
panic, modelled here with `Except`. -/
def transform_to_raster_by_tie_point_and_pixel_scale (tie_point pixel_scale : List ℚ)
    (coordinate : ℚ × ℚ) : Except String (ℕ × ℕ) :=
  let tieI := tie_point.getD 0 0
  let tieJ := tie_point.getD 1 0
  let tieX := tie_point.getD 3 0
  let tieY := tie_point.getD 4 0
  let sx := pixel_scale.getD 0 0
  let sy := pixel_scale.getD 1 0
  if sx = 0 ∨ sy = 0 then .error ("pixel scale has a zero component")
  else .ok (roundClamp (tieI + (coordinate.1 - tieX) / sx),
    roundClamp (tieJ - (coordinate.2 - tieY) / sy))

/-- Splits a tie-point sequence into its consecutive 6-element groups
`[I, J, K, X, Y, Z]` (§3); a trailing fragment shorter than 6 is dropped,
which never happens for data validated by `from_tag_data`. -/
def tiePointGroups : List ℚ → List (List ℚ)
  | a :: b :: c :: d :: e :: f :: rest => [a, b, c, d, e, f] :: tiePointGroups rest
  | _ => []

/-- Squared euclidean distance between two planar points. -/
def sqDist (p q : ℚ × ℚ) : ℚ :=
  (p.1 - q.1) ^ 2 + (p.2 - q.2) ^ 2

/-- The group whose key (extracted by `f`) is nearest to `target`,
keeping the earlier group on ties; `none` on an empty group list. -/
def nearestGroupBy (f : List ℚ → ℚ × ℚ) (target : ℚ × ℚ) :
    List (List ℚ) → Option (List ℚ)
  | [] => none
  | g :: gs =>
    some (gs.foldl (fun best h => if sqDist (f h) target < sqDist (f best) target then h else best) g)

/-- Modelled from the spec: the source leaves
`transform_to_model_by_tie_points` as `todo!()`; §4.2 leaves the
interpolation policy open and names nearest-neighbor as the minimum
acceptable policy, which is what is modelled here: return the model
`(X, Y)` of the group whose raster key `(I, J)` is nearest to the input
(an exact `(I, J)` match therefore returns its `(X, Y)` directly). -/
def transform_to_model_by_tie_points (tie_points : List ℚ) (coordinate : ℕ × ℕ) : ℚ × ℚ :=
  match nearestGroupBy (fun g => (g.getD 0 0, g.getD 1 0))
      ((coordinate.1 : ℚ), (coordinate.2 : ℚ)) (tiePointGroups tie_points) with
  | some g => (g.getD 3 0, g.getD 4 0)
  | none => (0, 0)

/-- Modelled from the spec: the source leaves
`transform_to_raster_by_tie_points` as `todo!()`; symmetrically to
`transform_to_model_by_tie_points`, return the rounded raster `(I, J)` of
the group whose model key `(X, Y)` is nearest to the input. -/
def transform_to_raster_by_tie_points (tie_points : List ℚ) (coordinate : ℚ × ℚ) :
    Except String (ℕ × ℕ) :=
  match nearestGroupBy (fun g => (g.getD 3 0, g.getD 4 0)) coordinate
      (tiePointGroups tie_points) with
  | some g => .ok (roundClamp (g.getD 0 0), roundClamp (g.getD 1 0))
  | none => .error ("no tie points available")

/-- Modelled from the spec: the source leaves
`transform_to_model_by_transformation_matrix` as `todo!()`; §4.2 defines
it as the row-major 4×4 matrix applied to the homogeneous raster vector
`[col, row, 0, 1]` (elevation fixed at 0 for the 2D contract), returning
the first two components `(X, Y)`. -/
def transform_to_model_by_transformation_matrix (transformation_matrix : List ℚ)
    (coordinate : ℕ × ℕ) : ℚ × ℚ :=
  let g := fun i => transformation_matrix.getD i 0
  let c : ℚ := coordinate.1
  let r : ℚ := coordinate.2
  (g 0 * c + g 1 * r + g 2 * 0 + g 3, g 4 * c + g 5 * r + g 6 * 0 + g 7)

/-- Modelled from the spec: the source leaves
`transform_to_raster_by_affine_transform` as `todo!()`; §4.2 defines it
as inverting the 4×4 matrix (cofactor expansion) and applying the inverse
to the homogeneous model vector `[X, Y, 0, 1]`, returning the rounded
first two components, and §7 requires a singular matrix to surface as a
computation error, modelled here with `Except`.  The inverse is the
adjugate divided by the determinant; only its first two rows are needed
for `(col, row)`. -/
def transform_to_raster_by_affine_transform (transformation_matrix : List ℚ)
    (coordinate : ℚ × ℚ) : Except String (ℕ × ℕ) :=
  let g := fun i => transformation_matrix.getD i 0
  let d := det4 transformation_matrix
  if d = 0 then .error ("transformation matrix is singular")
  else
    let x := coordinate.1
    let y := coordinate.2
    let col := (det3 (g 5) (g 6) (g 7) (g 9) (g 10) (g 11) (g 13) (g 14) (g 15) * x
      - det3 (g 1) (g 2) (g 3) (g 9) (g 10) (g 11) (g 13) (g 14) (g 15) * y
      + det3 (g 1) (g 2) (g 3) (g 5) (g 6) (g 7) (g 13) (g 14) (g 15) * 0
      - det3 (g 1) (g 2) (g 3) (g 5) (g 6) (g 7) (g 9) (g 10) (g 11) * 1) / d
    let row := (-det3 (g 4) (g 6) (g 7) (g 8) (g 10) (g 11) (g 12) (g 14) (g 15) * x
      + det3 (g 0) (g 2) (g 3) (g 8) (g 10) (g 11) (g 12) (g 14) (g 15) * y
      - det3 (g 0) (g 2) (g 3) (g 4) (g 6) (g 7) (g 12) (g 14) (g 15) * 0
      + det3 (g 0) (g 2) (g 3) (g 4) (g 6) (g 7) (g 8) (g 10) (g 11) * 1) / d
    .ok (roundClamp col, roundClamp row)

/-- Dispatcher `CoordinateTransform::transform_to_model`: dispatch on the active
variant, as in the source; each branch's algorithm is modelled from the
spec because the source bodies are `todo!()`. -/
def transform_to_model (t : CoordinateTransform) (coordinate : ℕ × ℕ) : ℚ × ℚ :=
  match t with
  | .TiePointAndPixelScale tie_point pixel_scale =>
    transform_to_model_by_tie_point_and_pixel_scale tie_point pixel_scale coordinate
  | .TiePoints tie_points => transform_to_model_by_tie_points tie_points coordinate
  | .AffineTransform transformation_matrix =>
    transform_to_model_by_transformation_matrix transformation_matrix coordinate

/-- Dispatcher `CoordinateTransform::transform_to_raster`: dispatch on the active
variant, as in the source; each branch's algorithm is modelled from the
spec because the source bodies are `todo!()`, and runtime mapping errors
(zero scale, singular matrix) surface in the `Except` error channel
(§7). -/
def transform_to_raster (t : CoordinateTransform) (coordinate : ℚ × ℚ) :
    Except String (ℕ × ℕ) :=
  match t with
  | .TiePointAndPixelScale tie_point pixel_scale =>
    transform_to_raster_by_tie_point_and_pixel_scale tie_point pixel_scale coordinate
  | .TiePoints tie_points => transform_to_raster_by_tie_points tie_points coordinate
  | .AffineTransform transformation_matrix =>
    transform_to_raster_by_affine_transform transformation_matrix coordinate

/-- Substring test on character lists: `needle` occurs contiguously in
the second argument. -/
def listSub (needle : List Char) : List Char → Bool
  | [] => needle.isEmpty
  | c :: cs => needle.isPrefixOf (c :: cs) || listSub needle cs

/-- Predicate `strContains hay needle`: `needle` occurs contiguously in
`hay`; used to state that an error message mentions a tag name or a
constraint phrase. -/
def strContains (hay needle : String) : Bool :=
  listSub needle.data hay.data

/-- Follows the spec's words (§4.1 step 1): the pixel-scale shape check,
with the source's message text. -/
def psViolation : Option (List ℚ) → Option TiffError
  | none => none
  | some l =>
    if l.length = 3 then none
    else some (.FormatError ("Number values in " ++ MODEL_PIXEL_SCALE_TAG ++ " must be equal to 3"))

/-- Follows the spec's words (§4.1 step 2): the tie-point shape checks,
positivity before divisibility, with the source's message texts. -/
def tpViolation : Option (List ℚ) → Option TiffError
  | none => none
  | some l =>
    if l.length = 0 then
      some (.FormatError ("Number of values in " ++ MODEL_TIE_POINT_TAG ++ " must be greater than 0"))
    else if l.length % 6 ≠ 0 then
      some (.FormatError ("Number of values in " ++ MODEL_TIE_POINT_TAG ++ " must be divisible by 6"))
    else none

/-- Follows the spec's words (§4.1 step 3): the transformation-matrix
shape check, with the source's message text. -/
def trViolation : Option (List ℚ) → Option TiffError
  | none => none
  | some l =>
    if l.length = 16 then none
    else some (.FormatError ("Number of values in " ++ MODEL_TRANSFORMATION_TAG ++ " must be equal to 16"))

/-- Follows the spec's words (§4.1 step 4): mutual exclusion when the
transformation is present, pixel scale reported before tie points. -/
def exclusionViolation (ps tp tr : Option (List ℚ)) : Option TiffError :=
  if tr.isSome then
    if ps.isSome then
      some (.FormatError (MODEL_PIXEL_SCALE_TAG ++ " must not be specified when " ++ MODEL_TRANSFORMATION_TAG ++ " is present"))
    else if tp.isSome then
      some (.FormatError (MODEL_TIE_POINT_TAG ++ " must not be specified when " ++ MODEL_TRANSFORMATION_TAG ++ " is present"))
    else none
  else none

/-- Follows the spec's words (§4.1 step 5): with the transformation
absent, tie points are mandatory and, for a single 6-element group, so is
the pixel scale. -/
def missingTagViolation (ps tp tr : Option (List ℚ)) : Option TiffError :=
  if tr.isSome then none
  else
    match tp with
    | none =>
      some (.FormatError (MODEL_TIE_POINT_TAG ++ " must be present when " ++ MODEL_TRANSFORMATION_TAG ++ " is missing"))
    | some l =>
      if l.length = 6 ∧ ps = none then
        some (.FormatError (MODEL_PIXEL_SCALE_TAG ++ " must be specified when " ++ MODEL_TIE_POINT_TAG ++ " contains 6 values"))
      else none

/-- Follows the spec's words: the §4.1 checklist applied in its stated
order — pixel-scale shape, tie-point shape, transformation shape, mutual
exclusion, missing-required-tag — returning the error of the earliest
violated check, or `none` when every check passes.  This is the spec-side
definition that claim C5 compares against `from_tag_data`. -/
def firstViolation (ps tp tr : Option (List ℚ)) : Option TiffError :=
  (psViolation ps).orElse fun _ =>
  (tpViolation tp).orElse fun _ =>
  (trViolation tr).orElse fun _ =>
  (exclusionViolation ps tp tr).orElse fun _ =>
  missingTagViolation ps tp tr

/-- Complete characterization of the successful runs of `from_tag_data`:
exactly three shapes of input produce an `ok`, one per variant. -/
theorem from_tag_data_ok_iff (ps tp tr : Option (List ℚ)) (res : CoordinateTransform) :
    from_tag_data ps tp tr = .ok res ↔
      ((∃ t, tr = some t ∧ t.length = 16 ∧ ps = none ∧ tp = none ∧ res = .AffineTransform t)
        ∨ (∃ l s, tr = none ∧ tp = some l ∧ l.length = 6 ∧ ps = some s ∧ s.length = 3 ∧
            res = .TiePointAndPixelScale l s)
        ∨ (∃ l, tr = none ∧ tp = some l ∧ 6 < l.length ∧ l.length % 6 = 0 ∧
            (ps = none ∨ ∃ s, ps = some s ∧ s.length = 3) ∧ res = .TiePoints l)) := by
  rcases ps with _ | lps <;> rcases tp with _ | ltp <;> rcases tr with _ | ltr <;>
    simp only [from_tag_data, checkPixelScale, checkTiePoints, checkTransformationMatrix]
  all_goals try split_ifs
  all_goals try simp_all
  all_goals try split_ifs
  all_goals try simp_all [← List.length_eq_zero]
  all_goals try exact eq_comm
  all_goals try (intro h6; omega)
  all_goals
    constructor
    · rintro rfl
      exact ⟨by omega, rfl⟩
    · rintro ⟨-, rfl⟩
      rfl

set_option maxHeartbeats 1000000 in
/-- Complete characterization of the failing runs of `from_tag_data`:
the returned error is the one of the earliest violated check of the
spec-ordered checklist `firstViolation`. -/
theorem from_tag_data_error_iff (ps tp tr : Option (List ℚ)) (e : TiffError) :
    from_tag_data ps tp tr = .error e ↔ firstViolation ps tp tr = some e := by
  rcases ps with _ | lps <;> rcases tp with _ | ltp <;> rcases tr with _ | ltr <;>
    simp only [from_tag_data, checkPixelScale, checkTiePoints, checkTransformationMatrix,
      firstViolation, psViolation, tpViolation, trViolation, exclusionViolation,
      missingTagViolation, Option.orElse]
  all_goals try split_ifs
  all_goals try simp_all
  all_goals try split_ifs
  all_goals try simp_all [← List.length_eq_zero]

/-- C1: whenever `from_tag_data` succeeds, exactly one variant is
produced, by precedence: `AffineTransform` iff the transformation input
is present; `TiePointAndPixelScale` iff the transformation is absent and
the tie points have exactly 6 elements (pixel scale then necessarily
present); `TiePoints` iff the transformation is absent and the tie points
have more than 6 elements — and in that last case replacing the
pixel-scale argument by `none` or by any 3-element list leaves the result
unchanged. -/
theorem variant_precedence_of_ok (ps tp tr : Option (List ℚ)) (res : CoordinateTransform)
    (h : from_tag_data ps tp tr = .ok res) :
    ((∃ t, res = .AffineTransform t) ↔ tr.isSome)
    ∧ ((∃ l s, res = .TiePointAndPixelScale l s) ↔
        (tr = none ∧ (∃ l, tp = some l ∧ l.length = 6) ∧ ps.isSome))
    ∧ ((∃ l, res = .TiePoints l) ↔ (tr = none ∧ ∃ l, tp = some l ∧ 6 < l.length))
    ∧ (∀ l, res = .TiePoints l →
        from_tag_data none tp tr = .ok res ∧
        ∀ s : List ℚ, s.length = 3 → from_tag_data (some s) tp tr = .ok res) := by
  rw [from_tag_data_ok_iff] at h
  rcases h with ⟨t, rfl, h16, rfl, rfl, rfl⟩ | ⟨l, s, rfl, rfl, h6, rfl, h3, rfl⟩ |
    ⟨l, rfl, rfl, h6, hmod, hps, rfl⟩
  · refine ⟨by simp, by simp, by simp, ?_⟩
    rintro l hl
    cases hl
  · refine ⟨by simp, by simp [h6], ?_, ?_⟩
    · constructor
      · rintro ⟨l', hl'⟩
        cases hl'
      · rintro ⟨-, l', hl', hlt⟩
        cases hl'
        omega
    · rintro l' hl'
      cases hl'
  · refine ⟨by simp, ?_, ?_, ?_⟩
    · constructor
      · rintro ⟨l', s', hl'⟩
        cases hl'
      · rintro ⟨-, ⟨l', hl', h6'⟩, -⟩
        cases hl'
        omega
    · exact ⟨fun _ => ⟨rfl, l, rfl, h6⟩, fun _ => ⟨l, rfl⟩⟩
    · rintro l' hl'
      cases hl'
      constructor
      · rw [from_tag_data_ok_iff]
        exact Or.inr (Or.inr ⟨l, rfl, rfl, h6, hmod, Or.inl rfl, rfl⟩)
      · intro s' hs'
        rw [from_tag_data_ok_iff]
        exact Or.inr (Or.inr ⟨l, rfl, rfl, h6, hmod, Or.inr ⟨s', rfl, hs'⟩, rfl⟩)

/-- C1 witness: a concrete successful run (twelve tie-point values, no
pixel scale, no transformation) instantiating `variant_precedence_of_ok`. -/
theorem variant_precedence_of_ok_witness :
    from_tag_data none (some (List.replicate 12 (0:ℚ))) none =
      .ok (.TiePoints (List.replicate 12 (0:ℚ))) ∧
    ((∃ l, CoordinateTransform.TiePoints (List.replicate 12 (0:ℚ)) = .TiePoints l) ↔
      ((none : Option (List ℚ)) = none ∧
        ∃ l, (some (List.replicate 12 (0:ℚ)) : Option (List ℚ)) = some l ∧ 6 < l.length)) := by
  refine ⟨by decide, ?_⟩
  exact (variant_precedence_of_ok none (some (List.replicate 12 (0:ℚ))) none _ (by decide)).2.2.1

/-- C5: the validation checks of `from_tag_data` are applied in the fixed
order pixel-scale shape, tie-point shape, transformation shape, mutual
exclusion, missing-required-tag — an error is returned exactly when the
spec-ordered checklist `firstViolation` reports one, and it is the error
of the earliest violated check; in particular a length-2 pixel scale
together with a length-15 transformation reports the pixel-scale error. -/
theorem validation_check_order (ps tp tr : Option (List ℚ)) (e : TiffError) :
    (from_tag_data ps tp tr = .error e ↔ firstViolation ps tp tr = some e)
    ∧ from_tag_data (some [1, 2]) none (some (List.replicate 15 0)) =
        .error (.FormatError ("Number values in " ++ MODEL_PIXEL_SCALE_TAG ++ " must be equal to 3")) :=
  ⟨from_tag_data_error_iff ps tp tr e, by decide⟩

/-- C10: `from_tag_data` does no value-level validation — any input whose
presence pattern and lengths satisfy the shape, exclusion and
requiredness rules yields `ok` whatever the numeric values are, and the
produced variant stores exactly the input sequences in their original
order. -/
theorem no_value_validation_of_shapes (ps tp tr : Option (List ℚ))
    (hps : ∀ l, ps = some l → l.length = 3)
    (htp : ∀ l, tp = some l → 0 < l.length ∧ l.length % 6 = 0)
    (htr : ∀ l, tr = some l → l.length = 16)
    (hexcl : tr ≠ none → ps = none ∧ tp = none)
    (hreq : tr = none → tp ≠ none)
    (hps6 : tr = none → ∀ l, tp = some l → l.length = 6 → ps ≠ none) :
    (∃ res, from_tag_data ps tp tr = .ok res)
    ∧ (∀ t, tr = some t → from_tag_data ps tp tr = .ok (.AffineTransform t))
    ∧ (∀ l s, tr = none → tp = some l → l.length = 6 → ps = some s →
        from_tag_data ps tp tr = .ok (.TiePointAndPixelScale l s))
    ∧ (∀ l, tr = none → tp = some l → l.length ≠ 6 →
        from_tag_data ps tp tr = .ok (.TiePoints l)) := by
  rcases tr with _ | t
  · rcases tp with _ | l
    · exact absurd rfl (hreq rfl)
    · obtain ⟨hpos, hmod⟩ := htp l rfl
      by_cases h6 : l.length = 6
      · rcases ps with _ | s
        · exact absurd rfl (hps6 rfl l rfl h6)
        · have h3 := hps s rfl
          have hok : from_tag_data (some s) (some l) none =
              .ok (.TiePointAndPixelScale l s) := by
            rw [from_tag_data_ok_iff]
            exact Or.inr (Or.inl ⟨l, s, rfl, rfl, h6, rfl, h3, rfl⟩)
          refine ⟨⟨_, hok⟩, ?_, ?_, ?_⟩
          · rintro t' ht'
            cases ht'
          · rintro l' s' - hl' - hs'
            cases hl'
            cases hs'
            exact hok
          · rintro l' - hl' h6'
            cases hl'
            exact absurd h6 h6'
      · have hlt : 6 < l.length := by omega
        have hps' : ps = none ∨ ∃ s, ps = some s ∧ s.length = 3 := by
          rcases hq : ps with _ | s
          · exact Or.inl rfl
          · exact Or.inr ⟨s, rfl, hps s hq⟩
        have hok : from_tag_data ps (some l) none = .ok (.TiePoints l) := by
          rw [from_tag_data_ok_iff]
          exact Or.inr (Or.inr ⟨l, rfl, rfl, hlt, hmod, hps', rfl⟩)
        refine ⟨⟨_, hok⟩, ?_, ?_, ?_⟩
        · rintro t' ht'
          cases ht'
        · rintro l' s' - hl' h6' -
          cases hl'
          exact absurd h6' h6
        · rintro l' - hl' -
          cases hl'
          exact hok
  · obtain ⟨hpsn, htpn⟩ := hexcl (by simp)
    subst hpsn
    subst htpn
    have h16 := htr t rfl
    have hok : from_tag_data none none (some t) = .ok (.AffineTransform t) := by
      rw [from_tag_data_ok_iff]
      exact Or.inl ⟨t, rfl, h16, rfl, rfl, rfl⟩
    refine ⟨⟨_, hok⟩, ?_, ?_, ?_⟩
    · rintro t' ht'
      cases ht'
      exact hok
    · rintro l' s' h
      cases h
    · rintro l' h
      cases h

/-- C10 witness: a 3-element pixel scale with arbitrary values together
with a single 6-element tie point is accepted and stored verbatim,
instantiating `no_value_validation_of_shapes`. -/
theorem no_value_validation_of_shapes_witness :
    (∀ l : List ℚ, (some [5, 6, 7] : Option (List ℚ)) = some l → l.length = 3) ∧
    from_tag_data (some [5, 6, 7]) (some [0, 0, 0, 100, 200, 0]) none =
      .ok (.TiePointAndPixelScale [0, 0, 0, 100, 200, 0] [5, 6, 7]) := by
  constructor
  · rintro l h
    cases h
    decide
  · exact (no_value_validation_of_shapes (some [5, 6, 7]) (some [0, 0, 0, 100, 200, 0]) none
      (by rintro l h; cases h; decide)
      (by rintro l h; cases h; decide)
      (by rintro l h; cases h)
      (fun h => absurd rfl h)
      (by rintro - h; cases h)
      (by rintro - l h -; exact Option.some_ne_none _)).2.2.1
      [0, 0, 0, 100, 200, 0] [5, 6, 7] rfl rfl (by decide) rfl

/-- C2 counterexample: `from_tag_data` can return an error although no
present input has a wrong element count — with all three inputs absent it
fails with the missing-tie-point error, refuting the claimed "error
exactly when a present input has the wrong element count". -/
theorem error_without_wrong_count :
    from_tag_data none none none =
      .error (.FormatError (MODEL_TIE_POINT_TAG ++ " must be present when " ++
        MODEL_TRANSFORMATION_TAG ++ " is missing")) := by
  decide

/-- C2 (amended): `from_tag_data` returns an error whenever a present
input has the wrong element count, provided the earlier shape checks
pass: a pixel scale of length other than 3 always yields an error
mentioning `ModelPixelScaleTag` and `3`; with a well-shaped (or absent)
pixel scale, empty tie points yield an error mentioning `greater than 0`
and tie points of length not divisible by 6 yield one mentioning
`divisible by 6`; with well-shaped (or absent) pixel scale and tie
points, a transformation of length other than 16 yields an error
mentioning `16`.  (Errors can also arise with all counts correct, from
the mutual-exclusion and missing-tag rules.) -/
theorem shape_error_messages :
    (∀ tp tr (l : List ℚ), l.length ≠ 3 →
      ∃ msg, from_tag_data (some l) tp tr = .error (.FormatError msg) ∧
        strContains msg MODEL_PIXEL_SCALE_TAG = true ∧ strContains msg ("3") = true)
    ∧ (∀ ps tr, (ps = none ∨ ∃ s : List ℚ, ps = some s ∧ s.length = 3) →
      ∃ msg, from_tag_data ps (some []) tr = .error (.FormatError msg) ∧
        strContains msg ("greater than 0") = true)
    ∧ (∀ ps tr (l : List ℚ), (ps = none ∨ ∃ s : List ℚ, ps = some s ∧ s.length = 3) →
      l.length ≠ 0 → l.length % 6 ≠ 0 →
      ∃ msg, from_tag_data ps (some l) tr = .error (.FormatError msg) ∧
        strContains msg ("divisible by 6") = true)
    ∧ (∀ ps tp (l : List ℚ), (ps = none ∨ ∃ s : List ℚ, ps = some s ∧ s.length = 3) →
      (tp = none ∨ ∃ u : List ℚ, tp = some u ∧ 0 < u.length ∧ u.length % 6 = 0) →
      l.length ≠ 16 →
      ∃ msg, from_tag_data ps tp (some l) = .error (.FormatError msg) ∧
        strContains msg ("16") = true) := by
  refine ⟨?_, ?_, ?_, ?_⟩
  · intro tp tr l hl
    refine ⟨"Number values in " ++ MODEL_PIXEL_SCALE_TAG ++ " must be equal to 3",
      ?_, by decide, by decide⟩
    rw [from_tag_data_error_iff]
    simp [firstViolation, psViolation, hl, Option.orElse]
  · intro ps tr hps
    refine ⟨"Number of values in " ++ MODEL_TIE_POINT_TAG ++ " must be greater than 0",
      ?_, by decide⟩
    rw [from_tag_data_error_iff]
    rcases hps with rfl | ⟨s, rfl, h3⟩ <;>
      simp_all [firstViolation, psViolation, tpViolation, Option.orElse]
  · intro ps tr l hps hl0 hl6
    refine ⟨"Number of values in " ++ MODEL_TIE_POINT_TAG ++ " must be divisible by 6",
      ?_, by decide⟩
    rw [from_tag_data_error_iff]
    rcases hps with rfl | ⟨s, rfl, h3⟩ <;>
      simp_all [firstViolation, psViolation, tpViolation, Option.orElse]
  · intro ps tp l hps htp h16
    refine ⟨"Number of values in " ++ MODEL_TRANSFORMATION_TAG ++ " must be equal to 16",
      ?_, by decide⟩
    rw [from_tag_data_error_iff]
    rcases hps with rfl | ⟨s, rfl, h3⟩ <;>
      rcases htp with rfl | ⟨u, rfl, hu0, hu6⟩ <;>
      (try replace hu0 : u.length ≠ 0 := by omega) <;>
      simp_all [firstViolation, psViolation, tpViolation, trViolation, Option.orElse]

/-- C2 witness: a length-2 pixel scale instantiating the first branch of
`shape_error_messages`. -/
theorem shape_error_messages_witness :
    ([1, 2] : List ℚ).length ≠ 3 ∧
    ∃ msg, from_tag_data (some [1, 2]) none none = .error (.FormatError msg) ∧
      strContains msg MODEL_PIXEL_SCALE_TAG = true ∧ strContains msg ("3") = true :=
  ⟨by decide, shape_error_messages.1 none none [1, 2] (by decide)⟩

/-- C3: with a 16-element transformation present, `from_tag_data` fails
whenever the pixel scale is also present and whenever the tie points are
also present — with the conflict error naming both involved tags when the
offending input is itself well-shaped (and, for the tie-point conflict,
the pixel scale absent, since the pixel-scale conflict is reported
first) — and succeeds with the `AffineTransform` variant when both others
are absent. -/
theorem transformation_mutual_exclusion (ps tp : Option (List ℚ)) (t : List ℚ)
    (ht : t.length = 16) :
    (ps.isSome → ∃ e, from_tag_data ps tp (some t) = .error e)
    ∧ (∀ s, ps = some s → s.length = 3 →
        (tp = none ∨ ∃ u : List ℚ, tp = some u ∧ 0 < u.length ∧ u.length % 6 = 0) →
        ∃ msg, from_tag_data ps tp (some t) = .error (.FormatError msg) ∧
          strContains msg MODEL_PIXEL_SCALE_TAG = true ∧
          strContains msg MODEL_TRANSFORMATION_TAG = true)
    ∧ (tp.isSome → ∃ e, from_tag_data ps tp (some t) = .error e)
    ∧ (ps = none → ∀ u, tp = some u → 0 < u.length → u.length % 6 = 0 →
        ∃ msg, from_tag_data ps tp (some t) = .error (.FormatError msg) ∧
          strContains msg MODEL_TIE_POINT_TAG = true ∧
          strContains msg MODEL_TRANSFORMATION_TAG = true)
    ∧ (ps = none → tp = none → from_tag_data ps tp (some t) = .ok (.AffineTransform t)) := by
  refine ⟨?_, ?_, ?_, ?_, ?_⟩
  · intro hpsome
    cases hE : from_tag_data ps tp (some t) with
    | error e => exact ⟨e, rfl⟩
    | ok res =>
      rw [from_tag_data_ok_iff] at hE
      rcases hE with ⟨t', -, -, rfl, -, -⟩ | ⟨l, s, htr', -⟩ | ⟨l, htr', -⟩
      · simp at hpsome
      · cases htr'
      · cases htr'
  · rintro s rfl h3 htp
    refine ⟨MODEL_PIXEL_SCALE_TAG ++ " must not be specified when " ++
      MODEL_TRANSFORMATION_TAG ++ " is present", ?_, by decide, by decide⟩
    rw [from_tag_data_error_iff]
    rcases htp with rfl | ⟨u, rfl, hu0, hu6⟩ <;>
      (try replace hu0 : u.length ≠ 0 := by omega) <;>
      simp_all [firstViolation, psViolation, tpViolation, trViolation, exclusionViolation,
        Option.orElse]
  · intro htpsome
    cases hE : from_tag_data ps tp (some t) with
    | error e => exact ⟨e, rfl⟩
    | ok res =>
      rw [from_tag_data_ok_iff] at hE
      rcases hE with ⟨t', -, -, -, rfl, -⟩ | ⟨l, s, htr', -⟩ | ⟨l, htr', -⟩
      · simp at htpsome
      · cases htr'
      · cases htr'
  · rintro rfl u rfl hu0 hu6
    replace hu0 : u.length ≠ 0 := by omega
    refine ⟨MODEL_TIE_POINT_TAG ++ " must not be specified when " ++
      MODEL_TRANSFORMATION_TAG ++ " is present", ?_, by decide, by decide⟩
    rw [from_tag_data_error_iff]
    simp_all [firstViolation, psViolation, tpViolation, trViolation, exclusionViolation,
      Option.orElse]
  · rintro rfl rfl
    rw [from_tag_data_ok_iff]
    exact Or.inl ⟨t, rfl, ht, rfl, rfl, rfl⟩

/-- C3 witness: the all-zero 16-element transformation alone yields the
`AffineTransform` variant, instantiating `transformation_mutual_exclusion`. -/
theorem transformation_mutual_exclusion_witness :
    (List.replicate 16 (0:ℚ)).length = 16 ∧
    from_tag_data none none (some (List.replicate 16 (0:ℚ))) =
      .ok (.AffineTransform (List.replicate 16 (0:ℚ))) :=
  ⟨by decide,
    (transformation_mutual_exclusion none none (List.replicate 16 (0:ℚ))
      (by decide)).2.2.2.2 rfl rfl⟩

/-- C4: with the transformation absent, `from_tag_data` fails when the
tie points are absent (pixel scale absent or well-shaped) with the error
stating the tie-point tag must be present when the transformation tag is
missing, and fails when the tie points have exactly 6 elements but the
pixel scale is absent with the error stating the pixel scale must be
specified when the tie-point tag contains 6 values. -/
theorem missing_required_tags :
    (∀ ps : Option (List ℚ), (ps = none ∨ ∃ s : List ℚ, ps = some s ∧ s.length = 3) →
      from_tag_data ps none none =
        .error (.FormatError (MODEL_TIE_POINT_TAG ++ " must be present when " ++
          MODEL_TRANSFORMATION_TAG ++ " is missing")))
    ∧ (∀ l : List ℚ, l.length = 6 →
      from_tag_data none (some l) none =
        .error (.FormatError (MODEL_PIXEL_SCALE_TAG ++ " must be specified when " ++
          MODEL_TIE_POINT_TAG ++ " contains 6 values"))) := by
  constructor
  · intro ps hps
    rw [from_tag_data_error_iff]
    rcases hps with rfl | ⟨s, rfl, h3⟩ <;>
      simp_all [firstViolation, psViolation, tpViolation, trViolation, exclusionViolation,
        missingTagViolation, Option.orElse]
  · intro l h6
    rw [from_tag_data_error_iff]
    simp_all [firstViolation, psViolation, tpViolation, trViolation, exclusionViolation,
      missingTagViolation, Option.orElse]

/-- C4 witness: a single all-zero tie-point group with no pixel scale,
instantiating `missing_required_tags`. -/
theorem missing_required_tags_witness :
    ([0, 0, 0, 0, 0, 0] : List ℚ).length = 6 ∧
    from_tag_data none (some [0, 0, 0, 0, 0, 0]) none =
      .error (.FormatError (MODEL_PIXEL_SCALE_TAG ++ " must be specified when " ++
        MODEL_TIE_POINT_TAG ++ " contains 6 values")) :=
  ⟨by decide, missing_required_tags.2 [0, 0, 0, 0, 0, 0] (by decide)⟩

/-- Floor of one half is zero. -/
theorem floor_half : ⌊(1 / 2 : ℚ)⌋ = 0 := by
  rw [Int.floor_eq_zero_iff]
  constructor <;> norm_num

/-- An exact nonnegative integer passes through `roundClamp` unchanged. -/
theorem roundClamp_natCast (n : ℕ) : roundClamp (n : ℚ) = n := by
  have h0 : ¬((n : ℚ) < 0) := by push_neg; positivity
  have hfl : ⌊(n : ℚ) + 1 / 2⌋ = (n : ℤ) := by
    rw [add_comm, Int.floor_add_nat, floor_half]
    simp
  unfold roundClamp
  rw [if_neg h0, hfl, Int.toNat_natCast]

/-- Rounding a value known to equal a natural number returns it. -/
theorem roundClamp_eq_natCast (q : ℚ) (n : ℕ) (h : q = (n : ℚ)) : roundClamp q = n := by
  rw [h, roundClamp_natCast]

/-- Round trip for the tie-point-and-pixel-scale mapping: with nonzero
scales the model→raster inverse recovers the pixel exactly. -/
theorem tie_point_roundtrip (t s : List ℚ) (c r : ℕ)
    (hx : s.getD 0 0 ≠ 0) (hy : s.getD 1 0 ≠ 0) :
    transform_to_raster (.TiePointAndPixelScale t s)
      (transform_to_model (.TiePointAndPixelScale t s) (c, r)) = .ok (c, r) := by
  have h1 : ∀ ti tx sx : ℚ, sx ≠ 0 → ti + (tx + ((c : ℚ) - ti) * sx - tx) / sx = (c : ℚ) := by
    intro ti tx sx hsx
    field_simp
  have h2 : ∀ tj ty sy : ℚ, sy ≠ 0 → tj - (ty - ((r : ℚ) - tj) * sy - ty) / sy = (r : ℚ) := by
    intro tj ty sy hsy
    field_simp
    ring
  simp only [transform_to_raster, transform_to_model,
    transform_to_model_by_tie_point_and_pixel_scale,
    transform_to_raster_by_tie_point_and_pixel_scale]
  rw [if_neg (by push_neg; exact ⟨hx, hy⟩)]
  rw [h1 _ _ _ hx, h2 _ _ _ hy, roundClamp_natCast, roundClamp_natCast]

/-- Round trip for the affine mapping restricted to matrices in
homogeneous 2D form (third row `[0, 0, zz, 0]`, fourth row
`[0, 0, zk, 1]`) with nonzero determinant: the adjugate-based inverse
recovers the pixel exactly. -/
theorem affine_roundtrip (a b c13 tx d e c23 ty zz zk : ℚ) (c r : ℕ)
    (hd : det4 [a, b, c13, tx, d, e, c23, ty, 0, 0, zz, 0, 0, 0, zk, 1] ≠ 0) :
    transform_to_raster
      (.AffineTransform [a, b, c13, tx, d, e, c23, ty, 0, 0, zz, 0, 0, 0, zk, 1])
      (transform_to_model
        (.AffineTransform [a, b, c13, tx, d, e, c23, ty, 0, 0, zz, 0, 0, 0, zk, 1]) (c, r)) =
      .ok (c, r) := by
  simp only [transform_to_raster, transform_to_model,
    transform_to_model_by_transformation_matrix, transform_to_raster_by_affine_transform]
  rw [if_neg hd]
  refine congrArg Except.ok ?_
  rw [Prod.mk.injEq]
  constructor
  · apply roundClamp_eq_natCast
    rw [div_eq_iff hd]
    simp [det4, det3]
    ring
  · apply roundClamp_eq_natCast
    rw [div_eq_iff hd]
    simp [det4, det3]
    ring

/-- C6 (spec-modelled): the tie-point-and-pixel-scale raster→model map
computes `(tieX + (col - tieI) * scaleX, tieY - (row - tieJ) * scaleY)`;
in particular the variant built from tie point `[0,0,0, 100,200,0]` and
pixel scale `[2,2,0]` sends pixel `(10, 10)` to model `(120, 180)`. -/
theorem tie_point_and_pixel_scale_to_model_spec :
    (∀ (t s : List ℚ) (c r : ℕ),
      transform_to_model_by_tie_point_and_pixel_scale t s (c, r) =
        (t.getD 3 0 + ((c : ℚ) - t.getD 0 0) * s.getD 0 0,
          t.getD 4 0 - ((r : ℚ) - t.getD 1 0) * s.getD 1 0))
    ∧ (∃ res, from_tag_data (some [2, 2, 0]) (some [0, 0, 0, 100, 200, 0]) none = .ok res ∧
        transform_to_model res (10, 10) = (120, 180)) := by
  constructor
  · intro t s c r
    rfl
  · refine ⟨.TiePointAndPixelScale [0, 0, 0, 100, 200, 0] [2, 2, 0], by decide, ?_⟩
    norm_num [transform_to_model, transform_to_model_by_tie_point_and_pixel_scale]

/-- C7 (spec-modelled): the variant built from the row-major 4×4 identity
matrix maps pixel `(5, 7)` to model `(5, 7)` and model `(5, 7)` back to
pixel `(5, 7)`. -/
theorem identity_affine_transform_values :
    ∃ res, from_tag_data none none
        (some [1, 0, 0, 0, 0, 1, 0, 0, 0, 0, 1, 0, 0, 0, 0, 1]) = .ok res ∧
      transform_to_model res (5, 7) = (5, 7) ∧
      transform_to_raster res (5, 7) = .ok (5, 7) := by
  refine ⟨.AffineTransform [1, 0, 0, 0, 0, 1, 0, 0, 0, 0, 1, 0, 0, 0, 0, 1],
    by decide, ?_, ?_⟩
  · norm_num [transform_to_model, transform_to_model_by_transformation_matrix]
  · norm_num [transform_to_raster, transform_to_raster_by_affine_transform, det4, det3,
      roundClamp] <;> decide

/-- C9 (spec-modelled): degenerate but shape-valid data makes
`transform_to_raster` report a computation error in the `Except` error
channel rather than a garbage value: any matrix of zero determinant (in
particular the all-zero matrix) and any pixel scale with a zero first or
second component. -/
theorem degenerate_to_raster_errors :
    (∀ (m : List ℚ) (p : ℚ × ℚ), det4 m = 0 →
      transform_to_raster (.AffineTransform m) p =
        .error ("transformation matrix is singular"))
    ∧ (∀ p : ℚ × ℚ,
      transform_to_raster
          (.AffineTransform [0, 0, 0, 0, 0, 0, 0, 0, 0, 0, 0, 0, 0, 0, 0, 0]) p =
        .error ("transformation matrix is singular"))
    ∧ (∀ (t s : List ℚ) (p : ℚ × ℚ), s.getD 0 0 = 0 ∨ s.getD 1 0 = 0 →
      transform_to_raster (.TiePointAndPixelScale t s) p =
        .error ("pixel scale has a zero component")) := by
  refine ⟨?_, ?_, ?_⟩
  · intro m p h
    simp only [transform_to_raster, transform_to_raster_by_affine_transform]
    rw [if_pos h]
  · intro p
    norm_num [transform_to_raster, transform_to_raster_by_affine_transform, det4, det3]
  · intro t s p h
    simp only [transform_to_raster, transform_to_raster_by_tie_point_and_pixel_scale]
    rw [if_pos h]

/-- C9 witness: a pixel scale whose second component is zero,
instantiating `degenerate_to_raster_errors`. -/
theorem degenerate_to_raster_errors_witness :
    (([2, 0, 0] : List ℚ).getD 0 0 = 0 ∨ ([2, 0, 0] : List ℚ).getD 1 0 = 0) ∧
    transform_to_raster (.TiePointAndPixelScale [0, 0, 0, 0, 0, 0] [2, 0, 0]) (3, 4) =
      .error ("pixel scale has a zero component") :=
  ⟨Or.inr (by decide),
    degenerate_to_raster_errors.2.2 [0, 0, 0, 0, 0, 0] [2, 0, 0] (3, 4) (Or.inr (by decide))⟩

/-- C8 counterexample: a non-singular matrix (determinant −1) whose third
row feeds the raster column into the model Z coordinate breaks the round
trip — pixel `(5, 7)` maps to model `(5, 7)` and back to pixel `(0, 7)`,
an error of 5 columns, far beyond a 1-pixel rounding tolerance.  The
spec's inverse mapping applies the inverted matrix to `[X, Y, 0, 1]`,
which is not the image vector `M * [col, row, 0, 1]` for such a matrix. -/
theorem affine_roundtrip_counterexample :
    det4 [1, 0, 1, 0, 0, 1, 0, 0, 1, 0, 0, 0, 0, 0, 0, 1] ≠ 0 ∧
    transform_to_raster (.AffineTransform [1, 0, 1, 0, 0, 1, 0, 0, 1, 0, 0, 0, 0, 0, 0, 1])
      (transform_to_model
        (.AffineTransform [1, 0, 1, 0, 0, 1, 0, 0, 1, 0, 0, 0, 0, 0, 0, 1]) (5, 7)) =
      .ok (0, 7) ∧
    ¬(((5 : ℤ) - (0 : ℤ)).natAbs ≤ 1) := by
  refine ⟨by norm_num [det4, det3], ?_, by decide⟩
  norm_num [transform_to_raster, transform_to_model, transform_to_raster_by_affine_transform,
    transform_to_model_by_transformation_matrix, det4, det3, roundClamp] <;> decide

/-- C8 (amended, spec-modelled): the round trip
`transform_to_raster ∘ transform_to_model` recovers every integer pixel
exactly (tolerance 0) for the `TiePointAndPixelScale` variant with
nonzero X and Y scales, and for the `AffineTransform` variant with a
non-singular matrix restricted to homogeneous 2D form — third row
`[0, 0, zz, 0]` and fourth row `[0, 0, zk, 1]` — the restriction on the third and fourth rows being
forced by the counterexample above. -/
theorem exact_roundtrip_restricted :
    (∀ (a b c13 tx d e c23 ty zz zk : ℚ) (c r : ℕ),
      det4 [a, b, c13, tx, d, e, c23, ty, 0, 0, zz, 0, 0, 0, zk, 1] ≠ 0 →
      transform_to_raster
        (.AffineTransform [a, b, c13, tx, d, e, c23, ty, 0, 0, zz, 0, 0, 0, zk, 1])
        (transform_to_model
          (.AffineTransform [a, b, c13, tx, d, e, c23, ty, 0, 0, zz, 0, 0, 0, zk, 1])
          (c, r)) = .ok (c, r))
    ∧ (∀ (t s : List ℚ) (c r : ℕ), s.getD 0 0 ≠ 0 → s.getD 1 0 ≠ 0 →
      transform_to_raster (.TiePointAndPixelScale t s)
        (transform_to_model (.TiePointAndPixelScale t s) (c, r)) = .ok (c, r)) :=
  ⟨fun a b c13 tx d e c23 ty zz zk c r hd =>
      affine_roundtrip a b c13 tx d e c23 ty zz zk c r hd,
    fun t s c r hx hy => tie_point_roundtrip t s c r hx hy⟩

/-- C8 witness: a diagonal-plus-translation matrix of determinant 6,
instantiating the affine branch of `exact_roundtrip_restricted` at pixel
`(3, 4)`. -/
theorem exact_roundtrip_restricted_witness :
    det4 [2, 0, 0, 5, 0, 3, 0, 7, 0, 0, 1, 0, 0, 0, 0, 1] ≠ 0 ∧
    transform_to_raster (.AffineTransform [2, 0, 0, 5, 0, 3, 0, 7, 0, 0, 1, 0, 0, 0, 0, 1])
      (transform_to_model
        (.AffineTransform [2, 0, 0, 5, 0, 3, 0, 7, 0, 0, 1, 0, 0, 0, 0, 1]) (3, 4)) =
      .ok (3, 4) :=
  ⟨by norm_num [det4, det3],
    exact_roundtrip_restricted.1 2 0 0 5 0 3 0 7 1 0 3 4 (by norm_num [det4, det3])⟩

/-- C5 witness: with pixel scale of length 2 and transformation of
length 15 both violated, the spec-ordered checklist reports the
pixel-scale error, as `validation_check_order` states. -/
theorem validation_check_order_witness :
    firstViolation (some [1, 2]) none (some (List.replicate 15 0)) =
      some (.FormatError ("Number values in " ++ MODEL_PIXEL_SCALE_TAG ++
        " must be equal to 3")) :=
  (validation_check_order (some [1, 2]) none (some (List.replicate 15 0))
    (.FormatError ("Number values in " ++ MODEL_PIXEL_SCALE_TAG ++
      " must be equal to 3"))).1.mp (by decide)
